import Mathlib

set_option maxRecDepth 16384

/-!
Verification of the conversation-orchestration core of a law-firm
client-intake backend.  The definitions below are a shallow embedding of
the Python sources: `app/services/orchestration_service.py`,
`app/services/firebase_service.py`, `app/services/lead_assignment_service.py`
and `app/config/lawyers.py`.  Python strings are modelled as Lean `String`
(Python `len` counts code points, as does the character-list length used
here); Python dicts keyed by strings or ints are modelled as association
lists whose `get` returns the most recent binding; Python exceptions raised
by external collaborators are modelled as explicit outcome parameters.
String primitives are implemented over the character list of the string so
that every definition evaluates inside the kernel.  Case mapping (`lower`,
`capitalize`, `title`) is ASCII, as provided by `Char.toLower` and
`Char.toUpper`; no theorem below depends on case-mapping a non-ASCII
letter.
-/

namespace Intake

/-! ### Python string primitives -/

/-- Python truthiness-based `a or b` for strings: `b` when `a` is empty. -/
def pyOr (a b : String) : String := if a = "" then b else a

/-- Length in code points (Python `len`). -/
def strLen (s : String) : Nat := s.data.length

def strTake (s : String) (n : Nat) : String := ⟨s.data.take n⟩

def strDrop (s : String) (n : Nat) : String := ⟨s.data.drop n⟩

/-- `needle` is a prefix of `hay` (first argument is the needle). -/
def listStarts : List Char → List Char → Bool
  | [], _ => true
  | _ :: _, [] => false
  | a :: as, b :: bs => a = b && listStarts as bs

/-- Python `s.startswith(p)`. -/
def strStarts (s p : String) : Bool := listStarts p.data s.data

/-- Scan helper for `strContains`. -/
def listContains (needle : List Char) : List Char → Bool
  | [] => listStarts needle []
  | c :: t => listStarts needle (c :: t) || listContains needle t

/-- Python `needle in hay` for strings. -/
def strContains (hay needle : String) : Bool := listContains needle.data hay.data

/-- Python `str.strip()` (ASCII whitespace). -/
def strTrim (s : String) : String :=
  ⟨((s.data.dropWhile Char.isWhitespace).reverse.dropWhile Char.isWhitespace).reverse⟩

/-- Python `str.lower()` (ASCII case mapping). -/
def strLower (s : String) : String := ⟨s.data.map Char.toLower⟩

/-- `''.join(filter(str.isdigit, s))`. -/
def digitsOf (s : String) : String := ⟨s.data.filter Char.isDigit⟩

/-- Helper for `pyWords`. -/
def pyWordsAux : List Char → List Char → List String
  | [], acc => if acc.isEmpty then [] else [⟨acc.reverse⟩]
  | c :: cs, acc =>
    if c.isWhitespace then
      if acc.isEmpty then pyWordsAux cs [] else ⟨acc.reverse⟩ :: pyWordsAux cs []
    else pyWordsAux cs (c :: acc)

/-- Python `str.split()` with no argument: maximal runs of non-whitespace. -/
def pyWords (s : String) : List String := pyWordsAux s.data []

/-- Python `str.isdigit()`: non-empty and all digits. -/
def pyIsDigit (s : String) : Bool := !s.data.isEmpty && s.data.all Char.isDigit

/-- Python `str.capitalize()`: first char upper, rest lower (ASCII). -/
def pyCapitalize (s : String) : String :=
  match s.data with
  | [] => ""
  | c :: cs => ⟨c.toUpper :: cs.map Char.toLower⟩

/-- Helper for `pyTitle`; the Bool records whether the previous char was a letter. -/
def pyTitleAux : List Char → Bool → List Char
  | [], _ => []
  | c :: cs, prevAlpha =>
    (if prevAlpha then c.toLower else c.toUpper) :: pyTitleAux cs c.isAlpha

/-- Python `str.title()` (ASCII case mapping). -/
def pyTitle (s : String) : String := ⟨pyTitleAux s.data false⟩

/-- `" ".join(words)`. -/
def joinSpace : List String → String
  | [] => ""
  | [w] => w
  | w :: ws => w ++ " " ++ joinSpace ws

/-- Number of distinct characters (Python `len(set(s))`). -/
def distinctCount (s : String) : Nat :=
  (s.data.foldl (fun acc c => if acc.contains c then acc else c :: acc) []).length

/-- Fuel-indexed replace-all, left to right, non-overlapping (the fuel is an
upper bound on the scan length; callers pass the length of the scanned list). -/
def listReplaceFuel (pat rep : List Char) : Nat → List Char → List Char
  | _, [] => []
  | 0, l => l
  | fuel + 1, c :: cs =>
    if pat.isEmpty then c :: cs
    else if listStarts pat (c :: cs) then
      rep ++ listReplaceFuel pat rep fuel (cs.drop (pat.length - 1))
    else c :: listReplaceFuel pat rep fuel cs

/-- Python `s.replace(pat, rep)` for a non-empty `pat`. -/
def strReplace (s pat rep : String) : String :=
  ⟨listReplaceFuel pat.data rep.data s.data.length s.data⟩

/-- Maximal runs of digit characters of a string, in order (helper for the
`\d` regular-expression searches in the source). -/
def digitRunsAux : List Char → List Char → List (List Char)
  | [], acc => if acc.isEmpty then [] else [acc.reverse]
  | c :: cs, acc =>
    if c.isDigit then digitRunsAux cs (c :: acc)
    else if acc.isEmpty then digitRunsAux cs []
    else acc.reverse :: digitRunsAux cs []

def digitRuns (s : String) : List (List Char) := digitRunsAux s.data []

/-- `re.search(r'(\d{10,11})', s)`: the first maximal digit run of length at
least 10 yields a match of its first `min 11` digits; no such run yields `""`.
(A regex match never spans two runs, and the leftmost viable start is the
start of the first long-enough run, matched greedily.) -/
def extractPhoneRe (s : String) : String :=
  match (digitRuns s).find? (fun r => decide (r.length ≥ 10)) with
  | some r => ⟨r.take 11⟩
  | none => ""

/-- `bool(re.search(r'\d{10,11}', s))`. -/
def hasPhoneRun (s : String) : Bool :=
  (digitRuns s).any (fun r => decide (r.length ≥ 10))

/-- A whitespace-delimited token matches `\S+@\S+\.\S+`: it has an `@` at
index at least 1 and a `.` at least two positions later with at least one
character after it.  (The regex cannot cross whitespace, its leftmost match
starts at the token start and its greedy tail reaches the token end, so the
match is exactly the token.) -/
def tokenHasEmail (t : String) : Bool :=
  let cs := t.data
  (List.range cs.length).any fun i =>
    (List.range cs.length).any fun j =>
      decide (1 ≤ i) && decide (i + 2 ≤ j) && decide (j + 2 ≤ cs.length) &&
      cs.getD i ' ' = '@' && cs.getD j ' ' = '.'

/-- `bool(re.search(r'\S+@\S+\.\S+', s))`. -/
def hasEmailRe (s : String) : Bool := (pyWords s).any tokenHasEmail

/-- `re.search(r'(\S+@\S+\.\S+)', s)` match text, or `""` when absent. -/
def extractEmailRe (s : String) : String := ((pyWords s).find? tokenHasEmail).getD ""

/-! ### Association-list maps (Python dicts)

`mapInsert` puts the newest binding at the head and `getS`/`mapFind?` return
the most recent one, which matches Python dict assignment and lookup. -/

abbrev StrMap := List (String × String)

def mapFind? (m : StrMap) (k : String) : Option String :=
  (m.find? (fun kv => kv.1 = k)).map (fun kv => kv.2)

/-- Python `d.get(k, "")` (and `d.get(k)` in a truthiness test). -/
def getS (m : StrMap) (k : String) : String := (mapFind? m k).getD ""

/-- Python `d.get(k, dflt)`: the default applies only when the key is absent. -/
def getD (m : StrMap) (k dflt : String) : String := (mapFind? m k).getD dflt

def mapInsert (m : StrMap) (k v : String) : StrMap := (k, v) :: m

abbrev NatMap := List (Nat × Nat)

def natFind? (m : NatMap) (k : Nat) : Option Nat :=
  (m.find? (fun kv => kv.1 = k)).map (fun kv => kv.2)

/-- Python `d.get(k, 0)` on the per-step attempt counters. -/
def natGet (m : NatMap) (k : Nat) : Nat := (natFind? m k).getD 0

def natInsert (m : NatMap) (k v : Nat) : NatMap := (k, v) :: m

/-! ### `IntelligentHybridOrchestrator._format_brazilian_phone`
(`app/services/orchestration_service.py`, lines 46-116). -/

/-- `number[0] in ['6', '7', '8', '9']` (`False` on the empty string, which
the source never reaches in the branches that perform this test). -/
def firstIsMobile (s : String) : Bool :=
  match s.data with
  | [] => false
  | c :: _ => c = '6' || c = '7' || c = '8' || c = '9'

def format_brazilian_phone (phoneClean : String) : String :=
  let pc := if strStarts phoneClean "55" then strDrop phoneClean 2 else phoneClean
  if strLen pc = 10 then
    let ddd := strTake pc 2
    let number := strDrop pc 2
    let number :=
      if firstIsMobile number then
        if strLen number = 8 then "9" ++ number else number
      else number
    "55" ++ ddd ++ number
  else if strLen pc = 11 then
    "55" ++ strTake pc 2 ++ strDrop pc 2
  else if strLen pc = 13 then
    pc
  else if strLen pc = 12 then
    if strStarts pc "55" then
      let ddd := strTake (strDrop pc 2) 2
      let number := strDrop pc 4
      let number :=
        if firstIsMobile number && strLen number = 8 then "9" ++ number else number
      "55" ++ ddd ++ number
    else
      "55" ++ strTake pc 2 ++ strDrop pc 2
  else if strLen pc ≥ 10 then
    let ddd := strTake pc 2
    let number := strDrop pc 2
    let number :=
      if strLen number = 8 && firstIsMobile number then "9" ++ number else number
    "55" ++ ddd ++ number
  else
    "55" ++ pc

/-! ### Lawyer directory (`app/config/lawyers.py`) -/

/-- A directory entry.  The configured entries carry no `id` key, so
`lawyer.get("id", lawyer["phone"])` falls back to the phone; the optional
`id` field keeps that lookup faithful. -/
structure Lawyer where
  name : String
  phone : String
  specialties : List String
  id : Option String := none
  deriving Repr, DecidableEq

/-- The `LAWYERS` constant of `app/config/lawyers.py`. -/
def LAWYERS : List Lawyer :=
  [ { name := "Advogada Maria Fernanda", phone := "555195690381",
      specialties := ["Penal", "Saúde Liminar"] },
    { name := "Advogado Ricardo", phone := "5511959840099",
      specialties := ["Penal", "Saúde Liminar"] },
    { name := "Advogado Daniel", phone := "559985252836",
      specialties := ["Penal", "Saúde Liminar"] } ]

def get_lawyers_for_notification : List Lawyer := LAWYERS

/-- `format_lawyer_phone_for_whatsapp` of `app/config/lawyers.py`. -/
def format_lawyer_phone_for_whatsapp (phone : String) : String :=
  let clean := digitsOf phone
  let clean := if strStarts clean "55" then clean else "55" ++ clean
  clean ++ "@s.whatsapp.net"

/-! ### Lead assignment (`app/services/lead_assignment_service.py`)

The Firestore `leads` collection is an association list from lead id to the
stored document.  Only the fields the service reads or writes are modelled;
`assigned_at` timestamps are elided (no claim mentions them).  The service's
`_get_lead_from_firebase` / `_update_lead_in_firebase` wrappers are modelled
as reliable store operations: the claims under verification concern the
assignment logic, not store outages. -/

structure Lead where
  lead_name : String
  phone : String
  category : String
  situation : String
  status : String
  assigned_to : Option String
  assigned_lawyer_id : Option String
  assigned_lawyer_name : Option String
  deriving Repr, DecidableEq

abbrev LeadDB := List (String × Lead)

def leadFind? (db : LeadDB) (leadId : String) : Option Lead :=
  (db.find? (fun kv => kv.1 = leadId)).map (fun kv => kv.2)

def leadSet (db : LeadDB) (leadId : String) (l : Lead) : LeadDB := (leadId, l) :: db

/-- Python truthiness of an optional string field (`if lead_data.get(...)`):
present and non-empty. -/
def truthy : Option String → Bool
  | none => false
  | some s => s ≠ ""

/-- The lawyer lookup of `assign_lead_to_lawyer`:
`lawyer["phone"] == lawyer_id or str(lawyer.get("id", lawyer["phone"])) == lawyer_id`. -/
def findLawyer (lawyers : List Lawyer) (lawyerId : String) : Option Lawyer :=
  lawyers.find? (fun l => l.phone = lawyerId || (l.id.getD l.phone) = lawyerId)

/-- The unassigned lead document written by
`create_lead_with_assignment_links` (timestamps elided). -/
def newLeadDoc (leadName leadPhone category situation : String) : Lead :=
  { lead_name := leadName, phone := leadPhone, category := category,
    situation := situation, status := "new", assigned_to := none,
    assigned_lawyer_id := none, assigned_lawyer_name := none }

structure AssignResult where
  success : Bool
  message : String
  status : String
  assigned_to : Option String := none
  deriving Repr, DecidableEq

/-- `LeadAssignmentService.assign_lead_to_lawyer`
(`app/services/lead_assignment_service.py`, lines 95-194).  Returns the
result dictionary together with the lead store after the call; the
confirmation / case-taken notifications are outbound side effects with no
bearing on the store. -/
def assign_lead_to_lawyer (db : LeadDB) (lawyers : List Lawyer)
    (leadId lawyerId : String) : AssignResult × LeadDB :=
  match leadFind? db leadId with
  | none =>
    ({ success := false, message := "Lead not found", status := "not_found" }, db)
  | some leadData =>
    if truthy leadData.assigned_to then
      let lawyerName := leadData.assigned_lawyer_name.getD "Unknown Lawyer"
      ({ success := false,
         message := "This lead has already been assigned to " ++ lawyerName ++ ".",
         status := "already_assigned", assigned_to := some lawyerName }, db)
    else
      match findLawyer lawyers lawyerId with
      | none =>
        ({ success := false, message := "Lawyer not found",
           status := "lawyer_not_found" }, db)
      | some lawyerInfo =>
        let leadData' := { leadData with
          status := "assigned", assigned_to := some lawyerId,
          assigned_lawyer_id := some lawyerId,
          assigned_lawyer_name := some lawyerInfo.name }
        ({ success := true,
           message := "You have successfully taken this lead: " ++ leadData.lead_name,
           status := "assigned", assigned_to := some lawyerInfo.name },
         leadSet db leadId leadData')

/-! ### Session store (`app/services/firebase_service.py`, lines 352-419)

`_memory_sessions` is the in-process mirror; the remote Firestore
`user_sessions` collection is a second association list in the same state.
A remote write either lands atomically or raises (and is swallowed); a
remote read either succeeds — returning the stored document or reporting
that none exists — or raises.  Timestamps are drawn from an explicit clock
value `now`. -/

/-- The session document fields read by `ensure_lead_step_from_message`,
plus an opaque remainder of the dictionary. -/
structure SessionRec where
  lead_data : StrMap := []
  current_step : Option Nat := none
  last_user_message : Option String := none
  created_at : Option Nat := none
  last_updated : Option Nat := none
  rest : StrMap := []
  deriving Repr, DecidableEq

/-- The greeting blocklist of `ensure_lead_step_from_message`. -/
def heuristicInvalidGreetings : List String :=
  ["oi", "olá", "ola", "hello", "hi", "hey", "bom dia", "boa tarde",
   "boa noite", "eae", "e ai", "opa", "start", "iniciar", "começar",
   "sim", "não", "nao", "ok", "tudo bem", "beleza"]

/-- The letter test `re.search(r"[A-Za-zÀ-ÖØ-öø-ÿ]", s)`. -/
def hasNameLetter (s : String) : Bool :=
  s.data.any fun c =>
    ('A' ≤ c && c ≤ 'Z') || ('a' ≤ c && c ≤ 'z') ||
    ('À' ≤ c && c ≤ 'Ö') || ('Ø' ≤ c && c ≤ 'ö') || ('ø' ≤ c && c ≤ 'ÿ')

/-- The name-plausibility test of `ensure_lead_step_from_message`
(`app/services/firebase_service.py`, lines 597-605). -/
def looksLikeName (lastMsg : String) : Bool :=
  let normalized := strTrim (strLower lastMsg)
  !(heuristicInvalidGreetings.contains normalized) &&
  decide (2 ≤ strLen lastMsg) && decide (strLen lastMsg ≤ 120) &&
  hasNameLetter lastMsg &&
  !(pyIsDigit lastMsg) &&
  decide (1 ≤ (pyWords lastMsg).length) &&
  !(strContains lastMsg "@") && !(strContains lastMsg "http") &&
  !(strContains lastMsg "www") &&
  !(["telefone", "email", "whatsapp", "contato"].any
      (fun w => strContains normalized w))

/-- `ensure_lead_step_from_message` (`app/services/firebase_service.py`,
lines 567-622). -/
def ensure_lead_step_from_message (s : SessionRec) : SessionRec :=
  let leadData := s.lead_data
  let lastMsg := strTrim ((s.last_user_message).getD "")
  let currentStep := (s.current_step).getD 1
  let existingName :=
    pyOr (getS leadData "identification")
      (pyOr (getS leadData "name") (getS leadData "user_name"))
  if currentStep = 1 && lastMsg ≠ "" && existingName = "" then
    if looksLikeName lastMsg then
      let processedName := pyTitle (strTrim lastMsg)
      let leadData := mapInsert leadData "identification" processedName
      let leadData := mapInsert leadData "name" processedName
      let leadData := mapInsert leadData "user_name" processedName
      let leadData := mapInsert leadData "username" processedName
      { s with lead_data := leadData }
    else s
  else s

/-- The two association lists of the store model: the in-process mirror and
the remote collection. -/
structure SessionStore where
  memory : List (String × SessionRec) := []
  remote : List (String × SessionRec) := []
  deriving Repr, DecidableEq

def sessFind? (m : List (String × SessionRec)) (k : String) : Option SessionRec :=
  (m.find? (fun kv => kv.1 = k)).map (fun kv => kv.2)

def sessInsert (m : List (String × SessionRec)) (k : String) (v : SessionRec) :
    List (String × SessionRec) := (k, v) :: m

def sessErase (m : List (String × SessionRec)) (k : String) :
    List (String × SessionRec) := m.filter (fun kv => kv.1 ≠ k)

/-- The record actually stored by `save_user_session` for non-`None` data:
timestamps are refreshed (`created_at` only when absent) and the
name-filling heuristic is applied before the memory and remote writes. -/
def storedSession (data : SessionRec) (now : Nat) : SessionRec :=
  let data := { data with
    last_updated := some now,
    created_at := some ((data.created_at).getD now) }
  ensure_lead_step_from_message data

/-- `save_user_session` (`app/services/firebase_service.py`, lines 365-419).
`remoteWriteOk` tells whether the Firestore write raised; a raised write is
logged and swallowed, so the function returns `true` either way.  (The
post-write verification re-read and forced `identification` update of lines
394-409 are identities under an atomic remote write and are elided.) -/
def save_user_session (st : SessionStore) (sessionId : String)
    (data : Option SessionRec) (now : Nat) (remoteWriteOk : Bool) :
    SessionStore × Bool :=
  match data with
  | none =>
    let mem := sessErase st.memory sessionId
    let rem := if remoteWriteOk then sessErase st.remote sessionId else st.remote
    ({ memory := mem, remote := rem }, true)
  | some rec0 =>
    let stored := storedSession rec0 now
    let mem := sessInsert st.memory sessionId stored
    let rem := if remoteWriteOk then sessInsert st.remote sessionId stored else st.remote
    ({ memory := mem, remote := rem }, true)

/-- Outcome of the remote document read inside `get_user_session`: the read
either completes (returning the remote collection's content, or reporting
the document absent) or raises. -/
inductive RemoteRead where
  | completes
  | raises
  deriving Repr, DecidableEq

/-- `get_user_session` (`app/services/firebase_service.py`, lines 352-363).
When the remote read completes, the remote answer is returned as is — a
missing document yields `none` with no consultation of the mirror; only a
raised read falls back to `_memory_sessions`. -/
def get_user_session (st : SessionStore) (sessionId : String)
    (read : RemoteRead) : Option SessionRec :=
  match read with
  | .completes => sessFind? st.remote sessionId
  | .raises => sessFind? st.memory sessionId

/-! ### Template renderer (`firebase_service.render_question`, lines 20-148)

A template string is modelled as a token list: literal chunks and
placeholders (`Tok.ph "user_name"` stands for the text `{user_name}`; the
stored name is the text between the braces, and may contain spaces, as in
`{user name}`).  This is the standard abstraction for the regex-driven
passes of the source: each `{...}` occurrence is substituted independently,
and substituted values are assumed placeholder-free.  The final whitespace
normalization of lines 134-138 operates below the placeholder level and is
outside this model.  `placeholder_map` is a Python dict built by a fixed
sequence of assignments; it is modelled as the assignment list in order,
with `dictLast?` giving dict lookup (last assignment wins) and `dictItems`
giving dict iteration (first-assignment positions, final values). -/

inductive Tok where
  | lit (s : String)
  | ph (name : String)
  deriving Repr, DecidableEq

def Tok.isLit : Tok → Bool
  | .lit _ => true
  | .ph _ => false

def Tok.isPh : Tok → Bool
  | .lit _ => false
  | .ph _ => true

abbrev Template := List Tok

def dictLast? (m : List (String × String)) (k : String) : Option String :=
  ((m.reverse).find? (fun kv => kv.1 = k)).map (fun kv => kv.2)

def dictKeys (m : List (String × String)) : List String :=
  (m.map (fun kv => kv.1)).foldl
    (fun acc k => if acc.contains k then acc else acc ++ [k]) []

def dictItems (m : List (String × String)) : List (String × String) :=
  (dictKeys m).map (fun k => (k, (dictLast? m k).getD ""))

/-- `key.replace('_', '')`. -/
def dropUnderscores (k : String) : String := ⟨k.data.filter (fun c => c ≠ '_')⟩

/-- `key.replace('_', ' ')`. -/
def underscoresToSpaces (k : String) : String :=
  ⟨k.data.map (fun c => if c = '_' then ' ' else c)⟩

/-- Step 1 of `render_question`: the three spellings of every non-blank
direct context field, in context order. -/
def directEntries (context : StrMap) : List (String × String) :=
  context.foldr
    (fun kv acc =>
      if kv.2 ≠ "" && strTrim kv.2 ≠ "" then
        (kv.1, strTrim kv.2) :: (dropUnderscores kv.1, strTrim kv.2) ::
          (underscoresToSpaces kv.1, strTrim kv.2) :: acc
      else acc) []

/-- The name alias spellings of step 2 of `render_question` (text between
the braces). -/
def nameAliases : List String :=
  ["user_name", "user name", "username", "name", "identification",
   "nome", "usuario", "cliente", "userName", "user-name",
   "User_Name", "USER_NAME", "Name", "USERNAME"]

def contactAliases : List String :=
  ["contact_info", "contact", "phone", "telefone", "contato", "whatsapp",
   "phone_number"]

def areaAliases : List String :=
  ["area", "area_of_law", "area_qualification", "area_direito",
   "especialidade", "areaoflaw"]

def situationAliases : List String :=
  ["situation", "case_details", "problem_description", "situacao",
   "problema", "caso", "casedetails"]

/-- Steps 1-5 of `render_question`: the full assignment sequence of
`placeholder_map`.  Each name alias is assigned and then its lowercase
spelling is assigned as well, exactly as in the source loop. -/
def buildPlaceholderMap (context : StrMap) : List (String × String) :=
  let direct := directEntries context
  let identification :=
    pyOr (getS context "identification")
      (pyOr (getS context "name") (getS context "user_name"))
  let nameEntries :=
    if identification ≠ "" then
      nameAliases.foldr
        (fun a acc =>
          (a, strTrim identification) :: (strLower a, strTrim identification) :: acc) []
    else []
  let contactInfo :=
    pyOr (getS context "contact_info")
      (pyOr (getS context "contact") (getS context "phone"))
  let contactEntries :=
    if contactInfo ≠ "" then contactAliases.map (fun a => (a, strTrim contactInfo))
    else []
  let area :=
    pyOr (getS context "area_qualification")
      (pyOr (getS context "area") (getS context "area_of_law"))
  let areaEntries :=
    if area ≠ "" then areaAliases.map (fun a => (a, strTrim area)) else []
  let situation :=
    pyOr (getS context "problem_description")
      (pyOr (getS context "situation") (getS context "case_details"))
  let situationEntries :=
    if situation ≠ "" then situationAliases.map (fun a => (a, strTrim situation))
    else []
  direct ++ nameEntries ++ contactEntries ++ areaEntries ++ situationEntries

/-- First pass (lines 95-99): exact placeholder lookup. -/
def renderPassExact (pm : List (String × String)) : Tok → Tok
  | .lit s => .lit s
  | .ph p =>
    match dictLast? pm p with
    | some v => .lit v
    | none => .ph p

/-- Second pass (lines 101-109): case-insensitive match against the map
keys, first matching dict item wins. -/
def renderPassCaseless (pm : List (String × String)) : Tok → Tok
  | .lit s => .lit s
  | .ph p =>
    match (dictItems pm).find? (fun kv => strLower kv.1 = strLower p) with
    | some kv => .lit kv.2
    | none => .ph p

/-- The name-word detection of line 119. -/
def placeholderDenotesName (p : String) : Bool :=
  ["name", "user", "nome", "usuario"].any (fun w => strContains (strLower p) w)

/-- The last-resort name fallback of lines 121-126. -/
def nameFallbackValue (context : StrMap) : String :=
  pyOr (getS context "identification")
    (pyOr (getS context "name") (pyOr (getS context "user_name") "Cliente"))

/-- Third pass (lines 111-132): remaining placeholders are filled with the
name fallback when they look name-like, and removed otherwise. -/
def renderPassFallback (context : StrMap) : Tok → Tok
  | .lit s => .lit s
  | .ph p =>
    if placeholderDenotesName p then .lit (nameFallbackValue context)
    else .lit ""

/-- `render_question` (`app/services/firebase_service.py`, lines 20-148) at
the placeholder level.  Line 25 returns the template untouched when it is
empty or contains no `{`. -/
def render_question (template : Template) (context : StrMap) : Template :=
  if template.isEmpty || !(template.any Tok.isPh) then template
  else
    let pm := buildPlaceholderMap context
    ((template.map (renderPassExact pm)).map (renderPassCaseless pm)).map
      (renderPassFallback context)

/-! ### Conversation flow (`orchestration_service._get_schema_flow`)

No `ai_schema.json` document exists in the repository, so the
`os.path.exists` branch of `_get_schema_flow` is never taken and the
hardcoded five-step flow of lines 330-408 is the flow in force.  Its steps
are already sorted by `id`, so the `sorted(...)` call of the caller is the
identity.  Placeholders inside question texts are written with escaped
braces. -/

structure StepValidation where
  min_length : Nat := 1
  min_words : Nat := 1
  required : Bool := true
  vtype : String := ""
  strict : Bool := false
  normalize_map : List (String × String) := []
  deriving Repr, DecidableEq

structure Step where
  id : Nat
  field : String
  question : String
  validation : StepValidation
  error_message : String
  deriving Repr, DecidableEq

def flowStep1 : Step :=
  { id := 1, field := "identification",
    question := "Olá! Seja bem-vindo ao m.lima. Estou aqui para entender seu caso e agilizar o contato com um de nossos advogados especializados.\n\nPara começar, qual é o seu nome completo?",
    validation := { min_length := 4, min_words := 2, required := true,
                    vtype := "name", strict := true },
    error_message := "Por favor, informe seu nome completo (nome e sobrenome). Exemplo: João Silva" }

def flowStep2 : Step :=
  { id := 2, field := "contact_info",
    question := "Prazer em conhecê-lo, \x7buser_name\x7d! Agora preciso de algumas informações de contato:\n\n📱 Qual o melhor telefone/WhatsApp para contato?\n📧 Você poderia informar seu e-mail também?",
    validation := { min_length := 10, required := true,
                    vtype := "contact_combined", strict := true },
    error_message := "Por favor, informe seu telefone (com DDD) e e-mail. Exemplo: (11) 99999-9999 - joao@email.com" }

def flowStep3 : Step :=
  { id := 3, field := "area_qualification",
    question := "Perfeito, \x7buser_name\x7d! Com qual área do direito você precisa de ajuda?\n\n• Penal\n• Saúde (ações e liminares médicas)",
    validation := { min_length := 3, required := true, vtype := "area",
                    strict := true,
                    normalize_map :=
                      [("penal", "Direito Penal"), ("criminal", "Direito Penal"),
                       ("crime", "Direito Penal"), ("saude", "Saúde/Liminares"),
                       ("saúde", "Saúde/Liminares"), ("liminar", "Saúde/Liminares"),
                       ("medica", "Saúde/Liminares"), ("médica", "Saúde/Liminares")] },
    error_message := "Por favor, escolha uma das áreas disponíveis: Penal ou Saúde (liminares médicas)." }

def flowStep4 : Step :=
  { id := 4, field := "case_details",
    question := "Entendi, \x7buser_name\x7d. Me diga de forma breve sobre sua situação em \x7barea\x7d:\n\n• O caso já está em andamento na justiça ou é uma situação inicial?\n• Existe algum prazo ou audiência marcada?\n• Em qual cidade ocorreu/está ocorrendo?",
    validation := { min_length := 20, min_words := 5, required := true,
                    vtype := "case_description", strict := true },
    error_message := "Por favor, me conte mais detalhes sobre sua situação. Preciso de pelo menos 20 caracteres para entender seu caso adequadamente." }

def flowStep5 : Step :=
  { id := 5, field := "lead_warming",
    question := "Obrigado por compartilhar, \x7buser_name\x7d. Casos como o seu em \x7barea\x7d exigem atenção imediata para evitar complicações.\n\nNossos advogados já atuaram em dezenas de casos semelhantes com ótimos resultados. Vou registrar os principais pontos para que o advogado responsável já entenda sua situação e agilize a solução.\n\nEm instantes você será direcionado para um de nossos especialistas. Está tudo certo?",
    validation := { min_length := 1, required := true,
                    vtype := "confirmation", strict := false },
    error_message := "Por favor, confirme se posso prosseguir com o direcionamento. Digite \x27sim\x27 ou \x27não\x27." }

def novoFluxoSteps : List Step :=
  [flowStep1, flowStep2, flowStep3, flowStep4, flowStep5]

def findStep (n : Nat) : Option Step := novoFluxoSteps.find? (fun s => s.id = n)

/-! ### Validation and normalization
(`orchestration_service.py`, lines 39-44, 118-145, 645-820). -/

/-- The `invalid_responses` table of the orchestrator constructor,
flattened in dict order (greetings, short_responses, test_responses,
generic). -/
def allInvalidResponses : List String :=
  ["oi", "olá", "ola", "hello", "hi", "hey", "e ai", "eai", "opa",
   "ok", "sim", "não", "nao", "yes", "no", "k", "kk", "kkk",
   "teste", "test", "123", "abc", "aaa", "bbb", "ccc", "xxx",
   "p.o.", "po", "p.o", ".", "..", "...", "a", "aa", "bb", "cc"]

/-- `_is_invalid_response` (lines 118-145); the unused `context` argument is
dropped. -/
def is_invalid_response (response : String) : Bool :=
  let responseLower := strTrim (strLower response)
  if allInvalidResponses.contains responseLower then true
  else if strLen (strTrim response) < 2 then true
  else if pyIsDigit (strTrim response) && strLen (strTrim response) < 4 then true
  else if distinctCount ⟨(strTrim response).data.filter (fun c => c ≠ ' ')⟩ ≤ 2 &&
          strLen (strTrim response) < 4 then true
  else false

/-- The `area_mapping` keyword tuples of
`_validate_and_normalize_answer_schema` (lines 677-680). -/
def penalKeywords : List String := ["penal", "criminal", "crime", "direito penal"]

def saudeKeywords : List String :=
  ["saude", "saúde", "liminar", "saude liminar", "saúde liminar", "health",
   "injunction", "medica", "médica"]

/-- `_validate_and_normalize_answer_schema` (lines 645-698). -/
def validate_and_normalize_answer_schema (answer0 : String) (stepConfig : Step) : String :=
  let answer := strTrim answer0
  let stepId := stepConfig.id
  let validation := stepConfig.validation
  match validation.normalize_map.find?
      (fun kv => strContains (strLower answer) kv.1) with
  | some kv => kv.2
  | none =>
    let fieldType := validation.vtype
    if fieldType = "name" || stepId = 1 then
      if is_invalid_response answer then answer
      else if (pyWords answer).length ≥ 2 then
        joinSpace ((pyWords answer).map pyCapitalize)
      else pyCapitalize answer
    else if fieldType = "contact_combined" || stepId = 2 then answer
    else if fieldType = "area" || stepId = 3 then
      let answerLower := strLower answer
      if penalKeywords.any (fun k => strContains answerLower k) then "Direito Penal"
      else if saudeKeywords.any (fun k => strContains answerLower k) then
        "Saúde/Liminares"
      else pyTitle answer
    else if fieldType = "case_description" || stepId = 4 then answer
    else if fieldType = "confirmation" || stepId = 5 then
      if ["sim", "ok", "pode", "claro", "vamos", "confirmo"].any
          (fun c => strContains (strLower answer) c) then "Confirmado"
      else answer
    else if fieldType = "phone" then digitsOf answer
    else answer

/-- The `valid_areas` list of step 3 in `_should_advance_step_schema`
(lines 772-775). -/
def validAreaKeywords : List String :=
  ["penal", "criminal", "crime", "direito penal",
   "saude", "saúde", "liminar", "saude liminar", "saúde liminar", "health",
   "medica", "médica"]

/-- The contact-related words of step 2 (line 757). -/
def contactWords : List String :=
  ["telefone", "celular", "whatsapp", "email", "gmail", "hotmail", "outlook"]

/-- The `valid_responses` list of step 5 (lines 807-811). -/
def confirmationResponses : List String :=
  ["sim", "não", "nao", "yes", "no", "ok", "pode", "claro", "vamos", "confirmo",
   "perfeito", "beleza", "certo", "tudo bem", "pode ser", "vamos lá", "tabom",
   "blz", "aceito", "concordo", "negativo", "positivo"]

/-- `_should_advance_step_schema` (lines 700-820). -/
def should_advance_step_schema (answer0 : String) (stepConfig : Step)
    (isFlexible : Bool) : Bool :=
  let answer := strTrim answer0
  let validation := stepConfig.validation
  let minLength := validation.min_length
  let minWords := validation.min_words
  let required := validation.required
  let stepId := stepConfig.id
  if required && decide (strLen answer < 1) then false
  else if decide (strLen answer < minLength) && !isFlexible then false
  else if stepId = 1 then
    if is_invalid_response answer then false
    else if pyIsDigit answer then false
    else if decide (strLen answer < 4) && !isFlexible then false
    else
      let words := pyWords answer
      if isFlexible then decide (words.length ≥ 1) && decide (strLen answer ≥ 2)
      else if words.length ≥ minWords then
        decide ((words.filter (fun w => decide (strLen w ≥ 2) && !pyIsDigit w)).length ≥ 2)
      else decide (strLen answer ≥ 6) && !pyIsDigit answer
  else if stepId = 2 then
    let answerLower := strLower answer
    let hasPhone := hasPhoneRun answer
    let hasEmail := hasEmailRe answer
    let hasContactWords := contactWords.any (fun w => strContains answerLower w)
    if is_invalid_response answer then false
    else if isFlexible then
      hasPhone || hasEmail || hasContactWords || decide (strLen answer ≥ 8)
    else hasPhone || hasEmail || (hasContactWords && decide (strLen answer ≥ minLength))
  else if stepId = 3 then
    let answerLower := strLower answer
    let hasValidArea := validAreaKeywords.any (fun k => strContains answerLower k)
    if is_invalid_response answer then false
    else if isFlexible then hasValidArea || decide (strLen answer ≥ 3)
    else hasValidArea
  else if stepId = 4 then
    if is_invalid_response answer then false
    else
      let words := pyWords answer
      if isFlexible then decide (strLen answer ≥ 10) && decide (words.length ≥ 3)
      else decide (strLen answer ≥ minLength) && decide (words.length ≥ minWords)
  else if stepId = 5 then
    (confirmationResponses.any (fun r => strContains (strLower answer) r)) ||
      decide (strLen answer ≥ 1)
  else if isFlexible then decide (strLen answer ≥ 2)
  else decide (strLen answer ≥ minLength)

/-- `_interpolate_message` (lines 610-633); a placeholder is substituted
(all occurrences) only when the mapped value is non-empty. -/
def interpolate_message (message : String) (leadData : StrMap) : String :=
  if message = "" then "Como posso ajudá-lo?"
  else
    let pairs : List (String × String) :=
      [("user_name", getS leadData "identification"),
       ("area", getS leadData "area_qualification"),
       ("contact_info", getS leadData "contact_info"),
       ("case_details", getS leadData "case_details"),
       ("phone", getS leadData "phone")]
    pairs.foldl
      (fun msg kv =>
        if kv.2 ≠ "" && strContains msg ("\x7b" ++ kv.1 ++ "\x7d") then
          strReplace msg ("\x7b" ++ kv.1 ++ "\x7d") kv.2
        else msg)
      message

/-! ### Session state and the turn function
(`orchestration_service.py`, lines 264-293 and 429-1077).

External side effects of a turn are collected in `Effects`; `Env` carries
the outcomes of the outbound collaborators.  `save_lead_data` of
`firebase_service.py` catches every exception and returns an offline id, so
lead persistence never raises into the orchestrator. -/

structure Session where
  session_id : String
  platform : String
  lead_data : StrMap := []
  message_count : Nat := 0
  fallback_step : Option Nat := none
  phone_submitted : Bool := false
  gemini_available : Bool := true
  fallback_completed : Bool := false
  lead_qualified : Bool := false
  validation_attempts : NatMap := []
  phone_number : Option String := none
  phone_formatted : Option String := none
  last_message : Option String := none
  last_response : Option String := none
  deriving Repr, DecidableEq

/-- The fresh session of `_get_or_create_session` (lines 272-287). -/
def new_session (sessionId platform : String) : Session :=
  { session_id := sessionId, platform := platform }

structure Effects where
  aiInvoked : Bool := false
  finalizationInvoked : Bool := false
  leadSaved : Bool := false
  lawyersNotified : Bool := false
  userWhatsAppSent : Bool := false
  deriving Repr, DecidableEq

structure Env where
  whatsappSendOk : Bool := true
  deriving Repr, DecidableEq

/-- `_is_quota_error` (lines 295-301). -/
def is_quota_error (errorMessage : String) : Bool :=
  ["429", "quota", "rate limit", "exceeded", "ResourceExhausted", "billing",
   "plan", "free tier", "requests per day"].any
    (fun ind => strContains (strLower errorMessage) (strLower ind))

/-- `_is_phone_number` (lines 303-306). -/
def is_phone_number (message : String) : Bool :=
  decide (10 ≤ strLen (digitsOf message)) && decide (strLen (digitsOf message) ≤ 13)

def finalizationPhoneReprompt : String :=
  "Não conseguimos identificar seu telefone nas informações fornecidas. Por favor, informe seu WhatsApp com DDD (exemplo: 11999999999):"

/-- The web confirmation message of lines 963-971. -/
def finalWebMessage (userName area : String) (whatsappOk : Bool) : String :=
  "Perfeito, " ++ userName ++ "! ✅\n\nSuas informações foram registradas com sucesso e nossa equipe especializada em " ++
  area ++ " foi notificada.\n\nUm advogado experiente do m.lima entrará em contato em breve para dar continuidade ao seu caso.\n\n" ++
  (if whatsappOk then "📱 Confirmação enviada no seu WhatsApp!"
   else "⚠️ Houve um problema ao enviar a confirmação no WhatsApp, mas suas informações foram salvas com sucesso.") ++
  "\n\nObrigado por escolher nossos serviços jurídicos! 🤝"

/-- The phone extraction of `_handle_lead_finalization` (lines 835-839):
the `phone` entry of `lead_data` when present, otherwise the first 10-11
digit run of the `contact_info` entry. -/
def finalizationPhone (leadData : StrMap) : String :=
  let p := getS leadData "phone"
  if p = "" then extractPhoneRe (getS leadData "contact_info") else p

/-- `_handle_lead_finalization` (lines 822-978): extract a phone, re-prompt
when none with at least 10 digits is available, otherwise persist the lead,
fan out the lawyer notifications, send the user confirmation and return the
final message. -/
def handle_lead_finalization (env : Env) (session : Session) :
    String × Session × Effects :=
  let leadData := session.lead_data
  let phoneClean := finalizationPhone leadData
  if phoneClean = "" || decide (strLen phoneClean < 10) then
    (finalizationPhoneReprompt, session, { finalizationInvoked := true })
  else
    let phoneFormatted := format_brazilian_phone phoneClean
    let session := { session with
      phone_number := some phoneClean,
      phone_formatted := some phoneFormatted,
      phone_submitted := true,
      lead_qualified := true,
      lead_data := mapInsert leadData "phone" phoneClean }
    let userName := getD leadData "identification" "Cliente"
    let area := getD leadData "area_qualification" "não informada"
    (finalWebMessage userName area env.whatsappSendOk, session,
     { finalizationInvoked := true, leadSaved := true, lawyersNotified := true,
       userWhatsAppSent := env.whatsappSendOk })

/-- `_handle_phone_collection` (lines 980-1007). -/
def handle_phone_collection (env : Env) (phoneMessage : String)
    (session : Session) : String × Session × Effects :=
  let phoneClean := digitsOf phoneMessage
  if decide (strLen phoneClean < 10) || decide (strLen phoneClean > 13) then
    ("Número inválido. Por favor, digite no formato com DDD (exemplo: 11999999999, 21987654321):",
     session, {})
  else
    let session :=
      { session with lead_data := mapInsert session.lead_data "phone" phoneClean }
    handle_lead_finalization env session

/-- The greeting tokens of the step-1 special case (line 513). -/
def initialGreetings : List String :=
  ["oi", "olá", "hello", "hi", "ola", "pronto para conversar",
   "pronto pra conversar"]

def defaultWelcome : String :=
  "Olá! Seja bem-vindo ao m.lima. Para começar, qual é o seu nome completo?"

/-- The step-specific escalation messages used once
`validation_attempts[step] >= max_attempts` (lines 538-548). -/
def escalationMessage (stepId : Nat) : String :=
  if stepId = 1 then
    "Preciso do seu nome completo para continuar. Por favor, digite seu nome e sobrenome (exemplo: João Silva):"
  else if stepId = 2 then
    "Preciso de seu telefone e/ou e-mail. Por favor, digite ao menos um contato válido:"
  else if stepId = 3 then
    "Por favor, escolha apenas: \x27Penal\x27 ou \x27Saúde\x27"
  else if stepId = 4 then
    "Preciso de mais detalhes sobre sua situação jurídica. Conte-me pelo menos uma frase sobre seu caso:"
  else
    "Por favor, confirme digitando \x27sim\x27 ou \x27não\x27:"

/-- The step-1 greeting re-prompt test of line 513. -/
def isInitialGreetingTurn (currentStepId : Nat) (message : String) : Bool :=
  decide (currentStepId = 1) && decide (message ≠ "") &&
    initialGreetings.contains (strLower (strTrim message))

/-- The answer-processing block of `_get_fallback_response` (lines
517-596), reached when the flow is live at `currentStep`, the message is
non-empty and the step-1 greeting case does not apply: count the attempt,
validate (flexibly after more than 3 attempts), and either re-prompt with
an error message or store the answer and advance — finalizing the lead
when no further step exists. -/
def answerStepTurn (env : Env) (session : Session) (message : String)
    (currentStepId : Nat) (currentStep : Step) : String × Session × Effects :=
  let leadData := session.lead_data
  let stepKey := currentStep.field
  let attempts := natGet session.validation_attempts currentStepId + 1
  let va := natInsert session.validation_attempts currentStepId attempts
  let session := { session with validation_attempts := va }
  -- max_attempts = 3 (line 524)
  let isFlexible := decide (attempts > 3)
  let normalized := validate_and_normalize_answer_schema message currentStep
  let shouldAdvance := should_advance_step_schema normalized currentStep isFlexible
  if !shouldAdvance then
    let validationMsg :=
      if decide (attempts ≥ 3) then escalationMessage currentStepId
      else currentStep.error_message
    let question := interpolate_message currentStep.question leadData
    (validationMsg ++ "\n\n" ++ question, session, {})
  else
    let va := natInsert va currentStepId 0
    let leadData := mapInsert leadData stepKey normalized
    let leadData :=
      if stepKey = "contact_info" then
        let phone := extractPhoneRe normalized
        let email := extractEmailRe normalized
        let leadData :=
          if phone ≠ "" then mapInsert leadData "phone" phone else leadData
        if email ≠ "" then mapInsert leadData "email" email else leadData
      else leadData
    let session := { session with lead_data := leadData, validation_attempts := va }
    let nextStepId := currentStepId + 1
    match findStep nextStepId with
    | some nextStep =>
      let va := natInsert va nextStepId 0
      let session := { session with
        fallback_step := some nextStepId, validation_attempts := va }
      (interpolate_message nextStep.question leadData, session, {})
    | none =>
      let session :=
        { session with fallback_completed := true, lead_qualified := true }
      handle_lead_finalization env session

/-- `_get_fallback_response` (lines 429-608): one scripted-flow turn.
Returns the response text, the session as persisted by the turn's
`save_user_session` calls, and the side effects triggered. -/
def get_fallback_response (env : Env) (session : Session) (message : String) :
    String × Session × Effects :=
  match session.fallback_step with
  | none =>
    let session := { session with
      fallback_step := some 1, lead_data := [], fallback_completed := false,
      lead_qualified := false, validation_attempts := [(1, 0)] }
    match findStep 1 with
    | some firstStep => (interpolate_message firstStep.question [], session, {})
    | none => (defaultWelcome, session, {})
  | some currentStepId =>
    if session.fallback_completed then
      let userName := getS session.lead_data "identification"
      ("Obrigado " ++ userName ++
         "! Nossa equipe já foi notificada e entrará em contato em breve. 🤝",
       session, {})
    else
      let leadData := session.lead_data
      match findStep currentStepId with
      | none =>
        let session := { session with
          fallback_step := some 1, lead_data := [], validation_attempts := [(1, 0)] }
        match findStep 1 with
        | some firstStep => (interpolate_message firstStep.question [], session, {})
        | none => (defaultWelcome, session, {})
      | some currentStep =>
        if isInitialGreetingTurn currentStepId message then
          (interpolate_message currentStep.question leadData, session, {})
        else if strTrim message ≠ "" then
          answerStepTurn env session message currentStepId currentStep
        else
          (interpolate_message currentStep.question leadData, session, {})

/-- The dictionary returned by `process_message`; keys that a branch does
not emit are `none`. -/
structure ProcessResult where
  response_type : String
  platform : String
  session_id : String
  response : Option String
  ai_mode : Option Bool := none
  fallback_step : Option (Option Nat) := none
  lead_qualified : Option Bool := none
  fallback_completed : Option Bool := none
  lead_data : Option StrMap := none
  validation_attempts : Option NatMap := none
  phone_submitted : Option Bool := none
  message_count : Option Nat := none
  error : Option String := none
  deriving Repr, DecidableEq

/-- `process_message` (lines 1009-1077).  `internalError` models an
unexpected exception raised inside the `try` block (caught by lines
1069-1077 before any state is persisted); `stored` is the session the store
returned.  The result triple is the returned dictionary, the session as
persisted, and the triggered side effects. -/
def process_message (env : Env) (internalError : Option String)
    (stored : Option Session) (message sessionId : String)
    (phoneNumber : Option String) (platform : String) :
    ProcessResult × Option Session × Effects :=
  match internalError with
  | some e =>
    ({ response_type := "orchestration_error_silent", platform := platform,
       session_id := sessionId, response := none, error := some e }, stored, {})
  | none =>
    let session :=
      match stored with
      | some s => s
      | none => new_session sessionId platform
    let session :=
      match phoneNumber with
      | some p => if p ≠ "" then { session with phone_number := some p } else session
      | none => session
    if session.lead_qualified && !session.phone_submitted &&
        is_phone_number message then
      let r := handle_phone_collection env message session
      ({ response_type := "phone_collected_novo_fluxo", platform := platform,
         session_id := sessionId, response := some r.1,
         phone_submitted := some true,
         message_count := some (session.message_count + 1) },
       some r.2.1, r.2.2)
    else
      let r := get_fallback_response env session message
      let session' := { r.2.1 with
        last_message := some message, last_response := some r.1,
        message_count := r.2.1.message_count + 1 }
      ({ response_type := platform ++ "_novo_fluxo_qualificacao_validado",
         platform := platform, session_id := sessionId, response := some r.1,
         ai_mode := some false, fallback_step := some session'.fallback_step,
         lead_qualified := some session'.lead_qualified,
         fallback_completed := some session'.fallback_completed,
         lead_data := some session'.lead_data,
         validation_attempts := some session'.validation_attempts,
         message_count := some session'.message_count },
       some session', r.2.2)

end Intake

namespace Intake

/-! ## Helper lemmas -/

/-- Each token class of `Tok` is literal exactly when it is not a
placeholder. -/
theorem Tok.isLit_eq_not_isPh (t : Tok) : t.isLit = !t.isPh := by
  cases t <;> rfl

/-- The fallback pass always produces a literal token. -/
theorem renderPassFallback_isLit (context : StrMap) (t : Tok) :
    (renderPassFallback context t).isLit = true := by
  cases t with
  | lit s => rfl
  | ph p =>
    simp only [renderPassFallback]
    split <;> rfl

/-- No branch of `_handle_lead_finalization` invokes the AI capability. -/
theorem handle_lead_finalization_aiInvoked (env : Env) (s : Session) :
    (handle_lead_finalization env s).2.2.aiInvoked = false := by
  simp only [handle_lead_finalization]
  split <;> rfl

/-- No branch of `_handle_phone_collection` invokes the AI capability. -/
theorem handle_phone_collection_aiInvoked (env : Env) (m : String) (s : Session) :
    (handle_phone_collection env m s).2.2.aiInvoked = false := by
  simp only [handle_phone_collection]
  split
  · rfl
  · exact handle_lead_finalization_aiInvoked env _

/-- No branch of the answer-processing block invokes the AI capability. -/
theorem answerStepTurn_aiInvoked (env : Env) (s : Session) (m : String)
    (n : Nat) (step : Step) :
    (answerStepTurn env s m n step).2.2.aiInvoked = false := by
  simp only [answerStepTurn]
  split
  · rfl
  · split
    · rfl
    · exact handle_lead_finalization_aiInvoked env _

/-- No branch of `_get_fallback_response` invokes the AI capability. -/
theorem get_fallback_response_aiInvoked (env : Env) (s : Session) (m : String) :
    (get_fallback_response env s m).2.2.aiInvoked = false := by
  simp only [get_fallback_response]
  split
  · split <;> rfl
  · split
    · rfl
    · split
      · split <;> rfl
      · split
        · rfl
        · split
          · exact answerStepTurn_aiInvoked env _ m _ _
          · rfl

/-- The `already_assigned` early return of `assign_lead_to_lawyer`. -/
theorem assign_rejects_when_assigned (db : LeadDB) (lawyers : List Lawyer)
    (leadId lawyerId : String) (lead : Lead)
    (hfind : leadFind? db leadId = some lead)
    (htr : truthy lead.assigned_to = true) :
    assign_lead_to_lawyer db lawyers leadId lawyerId =
      ({ success := false,
         message := "This lead has already been assigned to " ++
           lead.assigned_lawyer_name.getD "Unknown Lawyer" ++ ".",
         status := "already_assigned",
         assigned_to := some (lead.assigned_lawyer_name.getD "Unknown Lawyer") },
       db) := by
  simp only [assign_lead_to_lawyer, hfind, htr]
  rfl

/-- Lookup after `leadSet` at the same key. -/
theorem leadFind?_leadSet (db : LeadDB) (leadId : String) (l : Lead) :
    leadFind? (leadSet db leadId l) leadId = some l := by
  simp [leadFind?, leadSet]

/-- Map lookup after inserting the same key. -/
theorem mapFind?_insert_self (m : StrMap) (k v : String) :
    mapFind? (mapInsert m k v) k = some v := by
  simp [mapFind?, mapInsert]

/-- Map lookup after inserting a different key. -/
theorem mapFind?_insert_ne (m : StrMap) (k k' v : String) (h : k' ≠ k) :
    mapFind? (mapInsert m k' v) k = mapFind? m k := by
  simp [mapFind?, mapInsert, h]

theorem getS_insert_ne (m : StrMap) (k k' v : String) (h : k' ≠ k) :
    getS (mapInsert m k' v) k = getS m k := by
  simp [getS, mapFind?_insert_ne m k k' v h]

/-- A non-empty string has length at least one. -/
theorem strLen_pos (s : String) (h : s ≠ "") : 1 ≤ strLen s := by
  cases s with
  | mk data =>
    cases data with
    | nil => exact absurd rfl h
    | cons c cs => simp [strLen]

/-- The character list of `strTrim` in `rdropWhile` form. -/
theorem strTrim_data (s : String) :
    (strTrim s).data =
      List.rdropWhile Char.isWhitespace (s.data.dropWhile Char.isWhitespace) := rfl

/-- Python `strip` is idempotent. -/
theorem strTrim_idem (s : String) : strTrim (strTrim s) = strTrim s := by
  have key : ∀ l : List Char,
      List.dropWhile Char.isWhitespace
        (List.rdropWhile Char.isWhitespace (List.dropWhile Char.isWhitespace l)) =
      List.rdropWhile Char.isWhitespace (List.dropWhile Char.isWhitespace l) := by
    intro l
    rw [List.dropWhile_eq_self_iff]
    intro hl
    have hpre :=
      List.rdropWhile_prefix Char.isWhitespace (List.dropWhile Char.isWhitespace l)
    have hlen : 0 < (List.dropWhile Char.isWhitespace l).length :=
      Nat.lt_of_lt_of_le hl hpre.length_le
    have hget := hpre.getElem hl
    have hnot := List.dropWhile_get_zero_not Char.isWhitespace l hlen
    simpa [List.get_eq_getElem, hget] using hnot
  apply String.ext
  rw [strTrim_data (strTrim s), strTrim_data s, key s.data]
  exact List.rdropWhile_idempotent _ _

/-- Both branches of `_handle_lead_finalization` record the invocation. -/
theorem handle_lead_finalization_invoked (env : Env) (s : Session) :
    (handle_lead_finalization env s).2.2.finalizationInvoked = true := by
  simp only [handle_lead_finalization]
  split <;> rfl

/-- `_handle_lead_finalization` never changes `fallback_completed`. -/
theorem handle_lead_finalization_completed (env : Env) (s : Session) :
    (handle_lead_finalization env s).2.1.fallback_completed =
      s.fallback_completed := by
  simp only [handle_lead_finalization]
  split <;> rfl

/-- `_handle_lead_finalization` preserves an already-qualified session. -/
theorem handle_lead_finalization_qualified (env : Env) (s : Session)
    (h : s.lead_qualified = true) :
    (handle_lead_finalization env s).2.1.lead_qualified = true := by
  simp only [handle_lead_finalization]
  split
  · exact h
  · rfl

/-- When a 10-digit-or-longer phone is extractable, `_handle_lead_finalization`
persists the lead and fans out the lawyer notifications. -/
theorem handle_lead_finalization_saves (env : Env) (s : Session)
    (h : 10 ≤ strLen (finalizationPhone s.lead_data)) :
    (handle_lead_finalization env s).2.2.leadSaved = true ∧
    (handle_lead_finalization env s).2.2.lawyersNotified = true := by
  have hne : finalizationPhone s.lead_data ≠ "" := by
    intro he
    rw [he] at h
    simp [strLen] at h
  have h1 : decide (finalizationPhone s.lead_data = "") = false := by
    simp [hne]
  have h2 : decide (strLen (finalizationPhone s.lead_data) < 10) = false := by
    simp
    omega
  simp only [handle_lead_finalization, h1, h2, Bool.or_self]
  exact ⟨rfl, rfl⟩

/-- `finalizationPhone` ignores entries under other keys. -/
theorem finalizationPhone_insert_other (m : StrMap) (k v : String)
    (h1 : k ≠ "phone") (h2 : k ≠ "contact_info") :
    finalizationPhone (mapInsert m k v) = finalizationPhone m := by
  simp [finalizationPhone, getS_insert_ne m "phone" k v h1,
    getS_insert_ne m "contact_info" k v h2]

/-- Reduction of `_get_fallback_response` to the answer-processing block
under its guards: the flow is live at a found step, the step-1 greeting
case does not apply, and the message is non-empty. -/
theorem get_fallback_response_answer (env : Env) (session : Session)
    (message : String) (n : Nat) (step : Step)
    (hstep : session.fallback_step = some n)
    (hcomp : session.fallback_completed = false)
    (hfind : findStep n = some step)
    (hgreet : isInitialGreetingTurn n message = false)
    (hmsg : strTrim message ≠ "") :
    get_fallback_response env session message =
      answerStepTurn env session message n step := by
  simp only [get_fallback_response, hstep, hcomp, hfind, hgreet]
  simp [hmsg]

/-- Step 5's validation accepts every answer that is non-blank after
stripping, in strict and in flexible mode alike. -/
theorem flowStep5_accepts_nonempty (a : String) (flex : Bool)
    (ha : strTrim a ≠ "") :
    should_advance_step_schema a flowStep5 flex = true := by
  have h1 : 1 ≤ strLen (strTrim a) := strLen_pos _ ha
  have hlt : decide (strLen (strTrim a) < 1) = false := by
    simp
    omega
  have hge : decide (1 ≤ strLen (strTrim a)) = true := by
    simp [h1]
  simp [should_advance_step_schema, flowStep5, hlt, hge]
  omega

/-- Normalization at step 5 yields `"Confirmado"` or the stripped answer. -/
theorem validate_flowStep5_eq (m : String) :
    validate_and_normalize_answer_schema m flowStep5 =
      (if ["sim", "ok", "pode", "claro", "vamos", "confirmo"].any
          (fun c => strContains (strLower (strTrim m)) c) = true then "Confirmado"
       else strTrim m) := by
  simp [validate_and_normalize_answer_schema, flowStep5]

/-- Normalization at step 5 keeps a non-blank answer non-blank. -/
theorem validate_flowStep5_trim_ne (m : String) (hm : strTrim m ≠ "") :
    strTrim (validate_and_normalize_answer_schema m flowStep5) ≠ "" := by
  rw [validate_flowStep5_eq]
  split
  · decide
  · rw [strTrim_idem]
    exact hm

/-! ## Claim theorems -/

/-- C4: the phone formatter maps the raw inputs `"11999999999"` (11
digits), `"1199999999"` (10 digits without the mobile ninth digit) and
`"5511999999999"` (13 digits, already country-prefixed) to the same
canonical 13-digit country-coded mobile number `"5511999999999"`. -/
theorem phone_normalization_round_trip :
    format_brazilian_phone "11999999999" = "5511999999999" ∧
    format_brazilian_phone "1199999999" = "5511999999999" ∧
    format_brazilian_phone "5511999999999" = "5511999999999" := by
  refine ⟨by decide, by decide, by decide⟩

/-- C1: an assignment attempt on a lead whose `assigned_to` is already
non-null returns `success = false` with status `already_assigned` and
leaves the lead store untouched; consequently, for a stored unassigned
lead and a lawyer id present in the directory, `assign(leadId, lawyerA)`
followed by `assign(leadId, lawyerB)` yields exactly one success, the
second call reports `already_assigned` without mutating the store, and the
lead's `assigned_to` still equals `lawyerA`. -/
theorem assign_lead_at_most_one_success :
    (∀ (db : LeadDB) (lawyers : List Lawyer) (leadId lawyerId : String) (lead : Lead),
       leadFind? db leadId = some lead →
       truthy lead.assigned_to = true →
       (assign_lead_to_lawyer db lawyers leadId lawyerId).1.success = false ∧
       (assign_lead_to_lawyer db lawyers leadId lawyerId).1.status = "already_assigned" ∧
       (assign_lead_to_lawyer db lawyers leadId lawyerId).2 = db) ∧
    (∀ (db : LeadDB) (lawyers : List Lawyer) (leadId lawyerA lawyerB : String)
       (lead : Lead) (lw : Lawyer),
       leadFind? db leadId = some lead →
       lead.assigned_to = none →
       findLawyer lawyers lawyerA = some lw →
       lawyerA ≠ "" →
       (assign_lead_to_lawyer db lawyers leadId lawyerA).1.success = true ∧
       (assign_lead_to_lawyer
          (assign_lead_to_lawyer db lawyers leadId lawyerA).2 lawyers leadId
          lawyerB).1.success = false ∧
       (assign_lead_to_lawyer
          (assign_lead_to_lawyer db lawyers leadId lawyerA).2 lawyers leadId
          lawyerB).1.status = "already_assigned" ∧
       (assign_lead_to_lawyer
          (assign_lead_to_lawyer db lawyers leadId lawyerA).2 lawyers leadId
          lawyerB).2 = (assign_lead_to_lawyer db lawyers leadId lawyerA).2 ∧
       (leadFind? (assign_lead_to_lawyer db lawyers leadId lawyerA).2 leadId).map
         Lead.assigned_to = some (some lawyerA)) := by
  constructor
  · intro db lawyers leadId lawyerId lead hfind htr
    rw [assign_rejects_when_assigned db lawyers leadId lawyerId lead hfind htr]
    exact ⟨rfl, rfl, rfl⟩
  · intro db lawyers leadId lawyerA lawyerB lead lw hfind hunassigned hlw hA
    have h1 : assign_lead_to_lawyer db lawyers leadId lawyerA =
        ({ success := true,
           message := "You have successfully taken this lead: " ++ lead.lead_name,
           status := "assigned", assigned_to := some lw.name },
         leadSet db leadId
           { lead with
               status := "assigned",
               assigned_to := some lawyerA,
               assigned_lawyer_id := some lawyerA,
               assigned_lawyer_name := some lw.name }) := by
      simp only [assign_lead_to_lawyer, hfind, hunassigned, hlw, truthy]
      rfl
    have h2 : leadFind? (assign_lead_to_lawyer db lawyers leadId lawyerA).2 leadId =
        some { lead with
                 status := "assigned",
                 assigned_to := some lawyerA,
                 assigned_lawyer_id := some lawyerA,
                 assigned_lawyer_name := some lw.name } := by
      rw [h1]
      exact leadFind?_leadSet db leadId _
    have htrA : truthy (some lawyerA) = true := by
      simp [truthy, hA]
    have h3 := assign_rejects_when_assigned
      (assign_lead_to_lawyer db lawyers leadId lawyerA).2 lawyers leadId lawyerB _
      h2 htrA
    refine ⟨by rw [h1], by rw [h3], by rw [h3], by rw [h3], ?_⟩
    rw [h2]
    rfl

/-- Witness for C1 on the configured lawyer directory. -/
theorem assign_lead_at_most_one_success_witness :
    (truthy (newLeadDoc "Maria" "11999999999" "Direito Penal" "caso" |>.assigned_to) = false ∧
     findLawyer LAWYERS "555195690381" = some (LAWYERS.headD
       { name := "", phone := "", specialties := [] })) ∧
    ((assign_lead_to_lawyer
        [("L1", newLeadDoc "Maria" "11999999999" "Direito Penal" "caso")] LAWYERS
        "L1" "555195690381").1.success = true ∧
     (assign_lead_to_lawyer
        (assign_lead_to_lawyer
          [("L1", newLeadDoc "Maria" "11999999999" "Direito Penal" "caso")] LAWYERS
          "L1" "555195690381").2 LAWYERS "L1" "5511959840099").1.success = false ∧
     (assign_lead_to_lawyer
        (assign_lead_to_lawyer
          [("L1", newLeadDoc "Maria" "11999999999" "Direito Penal" "caso")] LAWYERS
          "L1" "555195690381").2 LAWYERS "L1" "5511959840099").1.status =
       "already_assigned" ∧
     (assign_lead_to_lawyer
        (assign_lead_to_lawyer
          [("L1", newLeadDoc "Maria" "11999999999" "Direito Penal" "caso")] LAWYERS
          "L1" "555195690381").2 LAWYERS "L1" "5511959840099").2 =
       (assign_lead_to_lawyer
          [("L1", newLeadDoc "Maria" "11999999999" "Direito Penal" "caso")] LAWYERS
          "L1" "555195690381").2 ∧
     (leadFind?
        (assign_lead_to_lawyer
          [("L1", newLeadDoc "Maria" "11999999999" "Direito Penal" "caso")] LAWYERS
          "L1" "555195690381").2 "L1").map Lead.assigned_to =
       some (some "555195690381")) :=
  ⟨⟨by decide, by decide⟩,
   assign_lead_at_most_one_success.2
     [("L1", newLeadDoc "Maria" "11999999999" "Direito Penal" "caso")] LAWYERS
     "L1" "555195690381" "5511959840099"
     (newLeadDoc "Maria" "11999999999" "Direito Penal" "caso")
     (LAWYERS.headD { name := "", phone := "", specialties := [] })
     (by decide) (by decide) (by decide) (by decide)⟩

/-- C2 counterexample: `save_user_session` stores the record in the
in-process mirror, yet when the remote write has failed (or its document is
not yet visible) and the remote read completes, `get_user_session` returns
`none` rather than the saved record — refuting the claim for the
"remote write failed / not yet visible" case. -/
theorem session_read_after_failed_write_cex :
    get_user_session
      (save_user_session {} "s1"
        (some { lead_data := [("identification", "Maria")] }) 7 false).1
      "s1" .completes = none ∧
    sessFind?
      ((save_user_session {} "s1"
        (some { lead_data := [("identification", "Maria")] }) 7 false).1).memory
      "s1" =
      some { lead_data := [("identification", "Maria")], created_at := some 7,
             last_updated := some 7 } := by
  refine ⟨by decide, by decide⟩

/-- C2 (amended): every write updates the in-process mirror, and a
subsequent `get_user_session` in the same process returns the stored record
exactly when the remote read raises; a remote read that completes without
finding the document — the case of a failed or not-yet-visible remote
write — returns `none` without consulting the mirror. -/
theorem session_mirror_semantics :
    ∀ (st : SessionStore) (sessionId : String) (rec0 : SessionRec) (now : Nat)
      (remoteWriteOk : Bool),
      sessFind? ((save_user_session st sessionId (some rec0) now remoteWriteOk).1).memory
          sessionId = some (storedSession rec0 now) ∧
      get_user_session (save_user_session st sessionId (some rec0) now remoteWriteOk).1
          sessionId .raises = some (storedSession rec0 now) ∧
      (sessFind? ((save_user_session st sessionId (some rec0) now remoteWriteOk).1).remote
          sessionId = none →
        get_user_session (save_user_session st sessionId (some rec0) now remoteWriteOk).1
          sessionId .completes = none) := by
  intro st sessionId rec0 now remoteWriteOk
  refine ⟨?_, ?_, ?_⟩
  · simp [save_user_session, sessFind?, sessInsert]
  · simp [get_user_session, save_user_session, sessFind?, sessInsert]
  · intro h
    simpa [get_user_session] using h

/-- Witness for C2 (amended) at a concrete store and record. -/
theorem session_mirror_semantics_witness :
    sessFind? ((save_user_session {} "s1"
        (some { lead_data := [("identification", "Maria")] }) 7 false).1).memory "s1" =
      some (storedSession { lead_data := [("identification", "Maria")] } 7) ∧
    get_user_session (save_user_session {} "s1"
        (some { lead_data := [("identification", "Maria")] }) 7 false).1 "s1" .raises =
      some (storedSession { lead_data := [("identification", "Maria")] } 7) ∧
    (sessFind? ((save_user_session {} "s1"
        (some { lead_data := [("identification", "Maria")] }) 7 false).1).remote "s1" =
        none →
      get_user_session (save_user_session {} "s1"
        (some { lead_data := [("identification", "Maria")] }) 7 false).1 "s1" .completes =
        none) :=
  session_mirror_semantics {} "s1" { lead_data := [("identification", "Maria")] } 7 false

/-- C3 counterexample: with the field map holding the user's name under the
key `nome` — a spelling the renderer itself recognizes as name-bearing —
the unresolved name placeholder `{user_name}` is replaced by the constant
`"Cliente"`, not by the name value present in the map, because the
last-resort fallback consults only the `identification`, `name` and
`user_name` keys. -/
theorem render_name_fallback_cex :
    render_question [Tok.ph "user_name"] [("nome", "Maria")] = [Tok.lit "Cliente"] ∧
    getS [("nome", "Maria")] "nome" = "Maria" ∧
    ("Cliente" : String) ≠ "Maria" := by
  refine ⟨by decide, by decide, by decide⟩

/-- C3 (amended): every placeholder still unresolved after the exact-match
pass and the case-insensitive pass is replaced — the rendered output
consists of literal tokens only; an unresolved placeholder that denotes the
user's name receives the fallback value drawn from the `identification`,
`name` or `user_name` keys of the map (the constant `"Cliente"` when all
three are empty), and every other unresolved placeholder is replaced with
the empty string. -/
theorem render_question_unresolved_policy :
    (∀ (template : Template) (context : StrMap),
       (render_question template context).all Tok.isLit = true) ∧
    (∀ (p : String) (context : StrMap),
       renderPassExact (buildPlaceholderMap context) (Tok.ph p) = Tok.ph p →
       renderPassCaseless (buildPlaceholderMap context) (Tok.ph p) = Tok.ph p →
       render_question [Tok.ph p] context =
         [if placeholderDenotesName p then Tok.lit (nameFallbackValue context)
          else Tok.lit ""]) := by
  constructor
  · intro template context
    simp only [render_question]
    split
    next h =>
      rw [Bool.or_eq_true] at h
      rcases h with h | h
      · rw [List.isEmpty_iff.mp h]
        rfl
      · rw [Bool.not_eq_true'] at h
        rw [List.any_eq_false] at h
        rw [List.all_eq_true]
        intro t ht
        simp [Tok.isLit_eq_not_isPh, h t ht]
    next h =>
      rw [List.all_eq_true]
      intro t ht
      obtain ⟨u, _, rfl⟩ := List.mem_map.mp ht
      exact renderPassFallback_isLit context u
  · intro p context h1 h2
    simp only [render_question, List.isEmpty_cons, List.any_cons, List.any_nil,
      Tok.isPh, Bool.or_false, Bool.not_true, Bool.false_or]
    simp only [List.map_cons, List.map_nil, h1, h2]
    simp only [renderPassFallback]
    split <;> simp_all

/-- Witness for C3 (amended): the name-like placeholder `client_name` is
unresolved by both passes and receives the identification value. -/
theorem render_question_unresolved_policy_witness :
    renderPassExact (buildPlaceholderMap [("identification", "Maria")])
        (Tok.ph "client_name") = Tok.ph "client_name" ∧
    render_question [Tok.ph "client_name"] [("identification", "Maria")] =
      [if placeholderDenotesName "client_name" then
         Tok.lit (nameFallbackValue [("identification", "Maria")])
       else Tok.lit ""] :=
  ⟨by decide,
   render_question_unresolved_policy.2 "client_name" [("identification", "Maria")]
     (by decide) (by decide)⟩

/-- C9 counterexample: a turn through the phone-collection branch (a
qualified session without a submitted phone receiving a 10-13 digit
message) succeeds but returns a result dictionary that carries no `ai_mode`
key at all, refuting "the returned result always carries `ai_mode` equal to
false". -/
theorem process_message_ai_mode_missing_cex :
    (process_message {} none
      (some { new_session "s1" "web" with
                fallback_step := some 5,
                fallback_completed := true,
                lead_qualified := true,
                lead_data := [("contact_info", "joao@ex.com")] })
      "11999999999" "s1" none "web").1.ai_mode = none ∧
    (process_message {} none
      (some { new_session "s1" "web" with
                fallback_step := some 5,
                fallback_completed := true,
                lead_qualified := true,
                lead_data := [("contact_info", "joao@ex.com")] })
      "11999999999" "s1" none "web").1.response_type =
      "phone_collected_novo_fluxo" := by
  refine ⟨by decide, by decide⟩

/-- C9 (amended): no turn of `process_message` ever invokes the
generative-AI capability, and on the scripted qualification path the result
carries `ai_mode = false`; the phone-collection path also never invokes the
AI but its result dictionary omits the `ai_mode` key. -/
theorem process_message_never_calls_ai :
    ∀ (env : Env) (internalError : Option String) (stored : Option Session)
      (message sessionId : String) (phoneNumber : Option String) (platform : String),
      (process_message env internalError stored message sessionId phoneNumber
        platform).2.2.aiInvoked = false ∧
      (internalError = none →
        (process_message env internalError stored message sessionId phoneNumber
          platform).1.ai_mode = some false ∨
        ((process_message env internalError stored message sessionId phoneNumber
           platform).1.ai_mode = none ∧
         (process_message env internalError stored message sessionId phoneNumber
           platform).1.response_type = "phone_collected_novo_fluxo")) := by
  intro env internalError stored message sessionId phoneNumber platform
  cases internalError with
  | some e =>
    refine ⟨rfl, ?_⟩
    intro h
    cases h
  | none =>
    constructor
    · simp only [process_message]
      split
      · exact handle_phone_collection_aiInvoked env message _
      · exact get_fallback_response_aiInvoked env _ message
    · intro _
      simp only [process_message]
      split
      · exact Or.inr ⟨rfl, rfl⟩
      · exact Or.inl rfl

/-- Witness for C9 (amended) at a concrete turn. -/
theorem process_message_never_calls_ai_witness :
    (process_message {} none none "oi" "s1" none "web").2.2.aiInvoked = false ∧
    ((process_message {} none none "oi" "s1" none "web").1.ai_mode = some false ∨
     ((process_message {} none none "oi" "s1" none "web").1.ai_mode = none ∧
      (process_message {} none none "oi" "s1" none "web").1.response_type =
        "phone_collected_novo_fluxo")) :=
  ⟨(process_message_never_calls_ai {} none none "oi" "s1" none "web").1,
   (process_message_never_calls_ai {} none none "oi" "s1" none "web").2 rfl⟩

/-- C5 counterexample: with an unexpected internal error raised during the
turn, `process_message` returns `response = None` — not a generic apology
text — together with the raw error string under the `error` key, and the
session is not reset to the first step. -/
theorem process_message_error_cex :
    (process_message {} (some "boom") none "oi" "s1" none "web").1.response = none ∧
    (process_message {} (some "boom") none "oi" "s1" none "web").1.error = some "boom" ∧
    (process_message {} (some "boom") none "oi" "s1" none "web").1.response_type =
      "orchestration_error_silent" := by
  refine ⟨by decide, by decide, by decide⟩

/-- C5 (amended): an unexpected internal error during a turn is caught at
the top level of `process_message` and never propagated, but the returned
result is the silent error dictionary — `response_type`
`orchestration_error_silent`, `response = None` and the raw error string —
and no apology text is produced and no session mutation or reset to the
first step takes place. -/
theorem process_message_error_silent :
    ∀ (env : Env) (e : String) (stored : Option Session) (message sessionId : String)
      (phoneNumber : Option String) (platform : String),
      process_message env (some e) stored message sessionId phoneNumber platform =
        ({ response_type := "orchestration_error_silent", platform := platform,
           session_id := sessionId, response := none, error := some e },
         stored, {}) := by
  intro env e stored message sessionId phoneNumber platform
  rfl

/-- C6: a non-greeting answer submitted to the live step `n` that fails the
step's validation while the failed-attempt count (this failure included) is
below the flexible threshold 3 does not advance the step — `fallback_step`
stays `n` and `lead_data` is untouched — and the response is the step's
configured error message followed by the step's re-rendered question. -/
theorem validation_stability :
    ∀ (env : Env) (session : Session) (message : String) (n : Nat) (step : Step),
      session.fallback_step = some n →
      session.fallback_completed = false →
      findStep n = some step →
      isInitialGreetingTurn n message = false →
      strTrim message ≠ "" →
      natGet session.validation_attempts n + 1 < 3 →
      should_advance_step_schema
        (validate_and_normalize_answer_schema message step) step false = false →
      (get_fallback_response env session message).1 =
        step.error_message ++ "\n\n" ++
          interpolate_message step.question session.lead_data ∧
      (get_fallback_response env session message).2.1.fallback_step = some n ∧
      (get_fallback_response env session message).2.1.lead_data =
        session.lead_data := by
  intro env session message n step hstep hcomp hfind hgreet hmsg hatt hrej
  rw [get_fallback_response_answer env session message n step hstep hcomp hfind
    hgreet hmsg]
  have hflex : decide (natGet session.validation_attempts n + 1 > 3) = false := by
    simp
    omega
  have hesc : decide (natGet session.validation_attempts n + 1 ≥ 3) = false := by
    simp
    omega
  simp [answerStepTurn, hflex, hrej, hesc, hstep]
  rw [if_neg (by omega)]

/-- Witness for C6: the one-letter answer `"x"` fails step 1's validation
on a fresh attempt counter. -/
theorem validation_stability_witness :
    (natGet ([] : NatMap) 1 + 1 < 3) ∧
    ((get_fallback_response {}
        { new_session "s" "web" with fallback_step := some 1 } "x").1 =
      flowStep1.error_message ++ "\n\n" ++
        interpolate_message flowStep1.question
          ({ new_session "s" "web" with fallback_step := some 1 } : Session).lead_data ∧
     (get_fallback_response {}
        { new_session "s" "web" with fallback_step := some 1 } "x").2.1.fallback_step =
       some 1 ∧
     (get_fallback_response {}
        { new_session "s" "web" with fallback_step := some 1 } "x").2.1.lead_data =
       ({ new_session "s" "web" with fallback_step := some 1 } : Session).lead_data) :=
  ⟨by decide,
   validation_stability {} { new_session "s" "web" with fallback_step := some 1 }
     "x" 1 flowStep1 rfl rfl rfl (by decide) (by decide) (by decide)
     (by decide)⟩

/-- C7: once the attempt counter of the live step `n` exceeds the fixed
threshold 3 (this attempt included), validation runs in flexible mode, so
an answer that strict validation rejects but flexible validation accepts is
stored under the step's field and the flow advances to step `n + 1`. -/
theorem flexible_escalation :
    ∀ (env : Env) (session : Session) (message : String) (n : Nat)
      (step nextStep : Step),
      session.fallback_step = some n →
      session.fallback_completed = false →
      findStep n = some step →
      findStep (n + 1) = some nextStep →
      isInitialGreetingTurn n message = false →
      strTrim message ≠ "" →
      natGet session.validation_attempts n + 1 > 3 →
      should_advance_step_schema
        (validate_and_normalize_answer_schema message step) step false = false →
      should_advance_step_schema
        (validate_and_normalize_answer_schema message step) step true = true →
      (get_fallback_response env session message).2.1.fallback_step =
        some (n + 1) ∧
      mapFind? (get_fallback_response env session message).2.1.lead_data
        step.field = some (validate_and_normalize_answer_schema message step) := by
  intro env session message n step nextStep hstep hcomp hfind hnext hgreet hmsg
    hatt hrejStrict haccFlex
  rw [get_fallback_response_answer env session message n step hstep hcomp hfind
    hgreet hmsg]
  have hflexT : decide (natGet session.validation_attempts n + 1 > 3) = true := by
    simp [hatt]
  constructor
  · simp [answerStepTurn, hflexT, haccFlex, hnext]
  · simp only [answerStepTurn, hflexT, haccFlex, Bool.not_true]
    simp only [Bool.false_eq_true, if_false, hnext]
    by_cases hf : step.field = "contact_info"
    · simp only [hf, if_true]
      split
      · rw [mapFind?_insert_ne _ _ _ _ (by decide)]
        split
        · rw [mapFind?_insert_ne _ _ _ _ (by decide), mapFind?_insert_self]
        · rw [mapFind?_insert_self]
      · split
        · rw [mapFind?_insert_ne _ _ _ _ (by decide), mapFind?_insert_self]
        · rw [mapFind?_insert_self]
    · rw [if_neg hf]
      exact mapFind?_insert_self _ _ _

/-- Witness for C7: after three failed attempts at step 1, the short
single-word answer `"Ana"` — rejected by strict validation — is accepted
and the flow advances to step 2. -/
theorem flexible_escalation_witness :
    (natGet ([(1, 3)] : NatMap) 1 + 1 > 3) ∧
    should_advance_step_schema
      (validate_and_normalize_answer_schema "Ana" flowStep1) flowStep1 false =
      false ∧
    should_advance_step_schema
      (validate_and_normalize_answer_schema "Ana" flowStep1) flowStep1 true =
      true ∧
    ((get_fallback_response {}
        { new_session "s" "web" with
            fallback_step := some 1,
            validation_attempts := [(1, 3)] } "Ana").2.1.fallback_step = some 2 ∧
     mapFind?
       (get_fallback_response {}
         { new_session "s" "web" with
             fallback_step := some 1,
             validation_attempts := [(1, 3)] } "Ana").2.1.lead_data
       flowStep1.field =
       some (validate_and_normalize_answer_schema "Ana" flowStep1)) :=
  ⟨by decide, by decide, by decide,
   flexible_escalation {}
     { new_session "s" "web" with
         fallback_step := some 1, validation_attempts := [(1, 3)] }
     "Ana" 1 flowStep1 flowStep2 rfl rfl rfl rfl (by decide)
     (by decide) (by decide) (by decide) (by decide)⟩

/-- C10: step 5 (`lead_warming`) accepts every non-blank answer — strict or
flexible, including the explicit negative `"não"` — and a turn of a live
step-5 session with any non-blank message marks the flow completed and the
lead qualified and invokes lead finalization; when a 10-digit-or-longer
phone is extractable from the collected data, finalization persists the
lead and fans out the lawyer notifications. -/
theorem lead_warming_accepts_any :
    ∀ (env : Env) (session : Session) (message : String),
      session.fallback_step = some 5 →
      session.fallback_completed = false →
      strTrim message ≠ "" →
      (∀ (a : String) (flex : Bool), strTrim a ≠ "" →
        should_advance_step_schema a flowStep5 flex = true) ∧
      should_advance_step_schema "não" flowStep5 false = true ∧
      (get_fallback_response env session message).2.1.fallback_completed = true ∧
      (get_fallback_response env session message).2.1.lead_qualified = true ∧
      (get_fallback_response env session message).2.2.finalizationInvoked = true ∧
      (10 ≤ strLen (finalizationPhone session.lead_data) →
        (get_fallback_response env session message).2.2.leadSaved = true ∧
        (get_fallback_response env session message).2.2.lawyersNotified = true) := by
  intro env session message hstep hcomp hmsg
  have hfind : findStep 5 = some flowStep5 := rfl
  have hgreet : isInitialGreetingTurn 5 message = false := by
    simp [isInitialGreetingTurn]
  have hred := get_fallback_response_answer env session message 5 flowStep5 hstep
    hcomp hfind hgreet hmsg
  have hadv :
      should_advance_step_schema
        (validate_and_normalize_answer_schema message flowStep5) flowStep5
        (decide (natGet session.validation_attempts 5 + 1 > 3)) = true :=
    flowStep5_accepts_nonempty _ _ (validate_flowStep5_trim_ne message hmsg)
  have hnone : findStep 6 = none := rfl
  have hfield : flowStep5.field = "lead_warming" := rfl
  have hEq : get_fallback_response env session message =
      handle_lead_finalization env
        { session with
            lead_data := mapInsert session.lead_data "lead_warming"
              (validate_and_normalize_answer_schema message flowStep5),
            validation_attempts :=
              natInsert
                (natInsert session.validation_attempts 5
                  (natGet session.validation_attempts 5 + 1)) 5 0,
            fallback_completed := true,
            lead_qualified := true } := by
    rw [hred]
    simp [answerStepTurn, hadv, hfield, hnone]
  refine ⟨fun a flex ha => flowStep5_accepts_nonempty a flex ha, by decide,
    ?_, ?_, ?_, ?_⟩
  · rw [hEq, handle_lead_finalization_completed]
  · rw [hEq]
    exact handle_lead_finalization_qualified env _ rfl
  · rw [hEq, handle_lead_finalization_invoked]
  · intro hphone
    rw [hEq]
    refine handle_lead_finalization_saves env _ ?_
    rw [finalizationPhone_insert_other _ _ _ (by decide) (by decide)]
    exact hphone

/-- Witness for C10: a fully collected session at step 5 answering `"não"`
completes, qualifies and finalizes, persisting the lead and notifying the
lawyers. -/
theorem lead_warming_accepts_any_witness :
    strTrim "não" ≠ "" ∧
    should_advance_step_schema "não" flowStep5 false = true ∧
    (get_fallback_response {}
      { new_session "s" "web" with
          fallback_step := some 5,
          lead_data := [("identification", "João Silva"),
                        ("contact_info", "11999999999 joao@ex.com"),
                        ("phone", "11999999999"),
                        ("area_qualification", "Direito Penal"),
                        ("case_details", "processo em andamento em são paulo")] }
      "não").2.1.fallback_completed = true ∧
    (get_fallback_response {}
      { new_session "s" "web" with
          fallback_step := some 5,
          lead_data := [("identification", "João Silva"),
                        ("contact_info", "11999999999 joao@ex.com"),
                        ("phone", "11999999999"),
                        ("area_qualification", "Direito Penal"),
                        ("case_details", "processo em andamento em são paulo")] }
      "não").2.2.leadSaved = true ∧
    (get_fallback_response {}
      { new_session "s" "web" with
          fallback_step := some 5,
          lead_data := [("identification", "João Silva"),
                        ("contact_info", "11999999999 joao@ex.com"),
                        ("phone", "11999999999"),
                        ("area_qualification", "Direito Penal"),
                        ("case_details", "processo em andamento em são paulo")] }
      "não").2.2.lawyersNotified = true :=
  ⟨by decide,
   (lead_warming_accepts_any {}
     { new_session "s" "web" with
         fallback_step := some 5,
         lead_data := [("identification", "João Silva"),
                       ("contact_info", "11999999999 joao@ex.com"),
                       ("phone", "11999999999"),
                       ("area_qualification", "Direito Penal"),
                       ("case_details", "processo em andamento em são paulo")] }
     "não" rfl rfl (by decide)).2.1,
   (lead_warming_accepts_any {}
     { new_session "s" "web" with
         fallback_step := some 5,
         lead_data := [("identification", "João Silva"),
                       ("contact_info", "11999999999 joao@ex.com"),
                       ("phone", "11999999999"),
                       ("area_qualification", "Direito Penal"),
                       ("case_details", "processo em andamento em são paulo")] }
     "não" rfl rfl (by decide)).2.2.2.1,
   ((lead_warming_accepts_any {}
     { new_session "s" "web" with
         fallback_step := some 5,
         lead_data := [("identification", "João Silva"),
                       ("contact_info", "11999999999 joao@ex.com"),
                       ("phone", "11999999999"),
                       ("area_qualification", "Direito Penal"),
                       ("case_details", "processo em andamento em são paulo")] }
     "não" rfl rfl (by decide)).2.2.2.2.2 (by decide)).1,
   ((lead_warming_accepts_any {}
     { new_session "s" "web" with
         fallback_step := some 5,
         lead_data := [("identification", "João Silva"),
                       ("contact_info", "11999999999 joao@ex.com"),
                       ("phone", "11999999999"),
                       ("area_qualification", "Direito Penal"),
                       ("case_details", "processo em andamento em são paulo")] }
     "não" rfl rfl (by decide)).2.2.2.2.2 (by decide)).2⟩

end Intake
